import Mathlib

/-!
Shallow embedding of the AIOne Aircraft Tracker server (src/server.js):
mongoose models (User, Aircraft, Presentation), the JWT helpers, the
`authenticateToken` middleware and every API route handler named by the
claims.  The MongoDB store is modelled as in-memory lists kept in insertion
order (`find()` with no sort returns natural order); `save()` performs the
schema validation (required fields, enum values) and the unique-index check
that mongoose/MongoDB perform, surfacing the same status codes the catch
blocks produce.  bcrypt is modelled by an injective hash so that
`bcrypt.compare(p, h)` succeeds exactly when `h` was computed from `p`.
-/

namespace AiOne

/-- JWT claims payload carried by a token: `{userId, username, role}` as
passed to `jwt.sign` (src/server.js lines 156-160, 200-204). -/
structure Claims where
  userId : Nat
  username : String
  role : String
deriving DecidableEq, Repr

/-- Shallow model of an encoded JWT string: either a well-formed signed token
(payload + expiry + the secret used for signing, standing for the signature)
or a malformed string that fails decoding. -/
inductive Token where
  | signed (payload : Claims) (exp : Nat) (secret : String)
  | malformed
deriving DecidableEq, Repr

/-- The server-held signing secret (src/server.js line 93). -/
def JWT_SECRET : String := "aione-tracker-secret-key-2024"

/-- 24 hours in seconds: the `expiresIn: '24h'` option of `jwt.sign`. -/
def tokenLifetime : Nat := 24 * 60 * 60

/-- `jwt.sign(payload, secret, {expiresIn: '24h'})`: encode the payload with
an expiry 24 hours from now, signed with the secret. -/
def jwtSign (payload : Claims) (secret : String) (now : Nat) : Token :=
  .signed payload (now + tokenLifetime) secret

/-- `jwt.verify(token, secret, cb)`: succeeds iff the token is well-formed,
its signature matches the secret, and it has not expired, yielding the
decoded payload; otherwise the callback receives an error. -/
def jwtVerify (t : Token) (secret : String) (now : Nat) : Option Claims :=
  match t with
  | .signed payload exp s => if s = secret ∧ now < exp then some payload else none
  | .malformed => none

/-- Model of `bcrypt.hash(password, 10)`: an injective one-way digest. -/
def bcryptHash (password : String) : String :=
  "$2a$10$" ++ password

/-- Model of `bcrypt.compare(password, hash)`: true exactly when the stored
hash was computed from this password. -/
def bcryptCompare (password hash : String) : Bool :=
  bcryptHash password == hash

/-- User document (userSchema, src/server.js lines 47-53).  `password`
stores the bcrypt hash. -/
structure User where
  _id : Nat
  username : String
  email : String
  password : String
  role : String
  createdAt : Nat
deriving DecidableEq, Repr

/-- The `role` enum of userSchema. -/
def roleEnum : List String := ["admin", "manager", "viewer"]

/-- Nested `specifications` sub-document of aircraftSchema. -/
structure Specifications where
  maxSpeed : Option Nat
  range : Option Nat
  capacity : Option Nat
deriving DecidableEq, Repr

/-- The `{}` default used by `specifications: specifications || {}`. -/
def emptySpecifications : Specifications :=
  { maxSpeed := none, range := none, capacity := none }

/-- Aircraft document (aircraftSchema, src/server.js lines 58-71). -/
structure Aircraft where
  _id : Nat
  tailNumber : String
  model : String
  manufacturer : String
  year : Nat
  status : String
  specifications : Specifications
  createdAt : Nat
  createdBy : Nat
deriving DecidableEq, Repr

/-- The `status` enum of aircraftSchema. -/
def aircraftStatusEnum : List String := ["active", "maintenance", "retired"]

/-- Presentation document (presentationSchema, src/server.js lines 76-86). -/
structure Presentation where
  _id : Nat
  title : String
  description : Option String
  scheduledDate : Nat
  duration : Nat
  aircraft : Nat
  presenter : Nat
  attendees : List Nat
  status : String
  createdAt : Nat
deriving DecidableEq, Repr

/-- The MongoDB database: one collection per model, each kept in insertion
(natural) order, which is what `find()` with no sort returns. -/
structure DB where
  users : List User
  aircraft : List Aircraft
  presentations : List Presentation
deriving DecidableEq, Repr

def emptyDB : DB := { users := [], aircraft := [], presentations := [] }

/-- All ObjectIds currently present in the store. -/
def DB.allIds (db : DB) : List Nat :=
  db.users.map (fun u => u._id) ++ db.aircraft.map (fun a => a._id)
    ++ db.presentations.map (fun p => p._id)

/-- A fresh ObjectId, as generated by mongoose when a document is built. -/
def DB.freshId (db : DB) : Nat :=
  db.allIds.foldr (fun a b => max a b) 0 + 1

/-- Shallow JSON values, mirroring the JS object literals the handlers send
with `res.json`.  `tok` stands for an encoded JWT string. -/
inductive JVal where
  | s (v : String)
  | n (v : Nat)
  | b (v : Bool)
  | null
  | tok (t : Token)
  | a (elems : List JVal)
  | o (fields : List (String × JVal))
deriving Repr

/-- An HTTP response: `res.status(code).json(body)`. -/
structure Response where
  status : Nat
  body : JVal
deriving Repr

/-- `res.status(code).json({error: msg})`, the shape of every failure. -/
def errorResponse (status : Nat) (msg : String) : Response :=
  { status := status, body := .o [("error", .s msg)] }

/-- Keys of a top-level JSON object. -/
def objKeys : JVal → List String
  | .o fields => fields.map Prod.fst
  | _ => []

/-- Look up a field of a top-level JSON object. -/
def jGet (k : String) : JVal → Option JVal
  | .o fields => (fields.find? (fun p => p.1 == k)).map Prod.snd
  | _ => none

/-- The `Authorization` header of a request, after the middleware's
`authHeader && authHeader.split(' ')[1]` extraction: the header may be
absent, present without a second space-separated part, or carry a token. -/
inductive AuthHeader where
  | absent
  | noToken
  | bearer (t : Token)
deriving Repr

/-- `const token = authHeader && authHeader.split(' ')[1]` (line 98). -/
def extractToken : AuthHeader → Option Token
  | .absent => none
  | .noToken => none
  | .bearer t => some t

/-- The `authenticateToken` middleware (src/server.js lines 96-120): no
token → 401; token that fails `jwt.verify` → 403; otherwise the decoded
claims are attached as `req.user` and the handler runs. -/
def authenticateToken (now : Nat) (hdr : AuthHeader) (db : DB)
    (handler : Claims → DB → Response × DB) : Response × DB :=
  match extractToken hdr with
  | none => (errorResponse 401 "Access token required. Please log in.", db)
  | some t =>
    match jwtVerify t JWT_SECRET now with
    | none => (errorResponse 403 "Invalid or expired token. Please log in again.", db)
    | some user => handler user db

/-- JS truthiness of an optional string body field: `!x` is true when the
field is absent or the empty string. -/
def falsyStr : Option String → Bool
  | none => true
  | some s => s == ""

/-- JS truthiness of an optional numeric body field: `!x` is true when the
field is absent or zero. -/
def falsyNat : Option Nat → Bool
  | none => true
  | some n => n == 0

/-! ## Authentication routes (public) -/

/-- Request body of `POST /api/auth/register`. -/
structure RegisterBody where
  username : Option String
  email : Option String
  password : Option String
  role : Option String
deriving Repr

/-- `User.findOne({$or: [{email}, {username}]})` (line 137): a stored user
matches when a provided field equals its value (mongoose drops fields whose
value is `undefined` from the filter). -/
def findUserByEmailOrUsername (db : DB) (email username : Option String) :
    Option User :=
  db.users.find? (fun u => email == some u.email || username == some u.username)

/-- The `{id, username, email, role}` object sent back by register and
login (lines 167-172, 210-216). -/
structure PublicUserOut where
  id : Nat
  username : String
  email : String
  role : String
deriving DecidableEq, Repr

def publicUserOut (u : User) : PublicUserOut :=
  { id := u._id, username := u.username, email := u.email, role := u.role }

def publicUserJson (p : PublicUserOut) : JVal :=
  .o [("id", .n p.id), ("username", .s p.username),
      ("email", .s p.email), ("role", .s p.role)]

/-- Success body shared by register (201) and login (200). -/
def authSuccessBody (message : String) (t : Token) (u : User) : JVal :=
  .o [("message", .s message), ("token", .tok t),
      ("user", publicUserJson (publicUserOut u))]

/-- `POST /api/auth/register` (src/server.js lines 132-179).  The handler
performs no field or password-length validation of its own: it checks for a
duplicate user, hashes the password and saves.  A missing password makes
`bcrypt.hash` throw and a missing username/email (or a role outside the
schema enum) makes `save()` throw a mongoose validation error; both land in
the catch block as 500 "Internal server error". -/
def register (body : RegisterBody) (now : Nat) (db : DB) : Response × DB :=
  let role := body.role.getD "viewer"
  match findUserByEmailOrUsername db body.email body.username with
  | some _ => (errorResponse 400 "User already exists", db)
  | none =>
    match body.password with
    | none => (errorResponse 500 "Internal server error", db)
    | some pw =>
      match body.username, body.email with
      | some un, some em =>
        if roleEnum.contains role then
          let user : User :=
            { _id := db.freshId, username := un, email := em,
              password := bcryptHash pw, role := role, createdAt := now }
          let db' : DB := { db with users := db.users ++ [user] }
          let token := jwtSign
            { userId := user._id, username := user.username, role := user.role }
            JWT_SECRET now
          ({ status := 201,
             body := authSuccessBody "User registered successfully" token user },
           db')
        else (errorResponse 500 "Internal server error", db)
      | _, _ => (errorResponse 500 "Internal server error", db)

/-- Request body of `POST /api/auth/login` (string-valued fields). -/
structure LoginBody where
  email : String
  password : String
deriving Repr

/-- `User.findOne({email})` (line 186). -/
def findUserByEmail (db : DB) (email : String) : Option User :=
  db.users.find? (fun u => u.email == email)

/-- `POST /api/auth/login` (src/server.js lines 181-223): unknown email and
failed hash comparison both answer 401 with the same body; success issues a
fresh token over the stored user's id, username and role. -/
def login (body : LoginBody) (now : Nat) (db : DB) : Response :=
  match findUserByEmail db body.email with
  | none => errorResponse 401 "Invalid credentials"
  | some user =>
    if bcryptCompare body.password user.password then
      { status := 200,
        body := authSuccessBody "Login successful"
          (jwtSign { userId := user._id, username := user.username,
                     role := user.role } JWT_SECRET now)
          user }
    else errorResponse 401 "Invalid credentials"

/-! ## Aircraft routes (protected) -/

/-- The `{_id, username}` object produced by `.populate('createdBy',
'username')` and `.populate('presenter'/'attendees', 'username')`. -/
structure UserRef where
  _id : Nat
  username : String
deriving DecidableEq, Repr

/-- Resolve a user ObjectId to its populated `{_id, username}` form;
a dangling reference populates to null. -/
def resolveUserRef (db : DB) (uid : Nat) : Option UserRef :=
  (db.users.find? (fun u => u._id == uid)).map
    (fun u => { _id := u._id, username := u.username })

/-- An Aircraft document after `.populate('createdBy', 'username')`. -/
structure PopulatedAircraft where
  _id : Nat
  tailNumber : String
  model : String
  manufacturer : String
  year : Nat
  status : String
  specifications : Specifications
  createdAt : Nat
  createdBy : Option UserRef
deriving DecidableEq, Repr

def populateAircraft (db : DB) (a : Aircraft) : PopulatedAircraft :=
  { _id := a._id, tailNumber := a.tailNumber, model := a.model,
    manufacturer := a.manufacturer, year := a.year, status := a.status,
    specifications := a.specifications, createdAt := a.createdAt,
    createdBy := resolveUserRef db a.createdBy }

def optNatJson : Option Nat → JVal
  | none => .null
  | some n => .n n

def specificationsJson (s : Specifications) : JVal :=
  .o [("maxSpeed", optNatJson s.maxSpeed), ("range", optNatJson s.range),
      ("capacity", optNatJson s.capacity)]

def userRefJson : Option UserRef → JVal
  | none => .null
  | some r => .o [("_id", .n r._id), ("username", .s r.username)]

def populatedAircraftJson (p : PopulatedAircraft) : JVal :=
  .o [("_id", .n p._id), ("tailNumber", .s p.tailNumber),
      ("model", .s p.model), ("manufacturer", .s p.manufacturer),
      ("year", .n p.year), ("status", .s p.status),
      ("specifications", specificationsJson p.specifications),
      ("createdAt", .n p.createdAt), ("createdBy", userRefJson p.createdBy)]

/-- `Aircraft.find().populate('createdBy', 'username')` (line 229): every
aircraft in the store, in natural (insertion) order — no sort is applied. -/
def aircraftListData (db : DB) : List PopulatedAircraft :=
  db.aircraft.map (populateAircraft db)

/-- `GET /api/aircraft` (src/server.js lines 226-239). -/
def getAircraft (_user : Claims) (db : DB) : Response × DB :=
  ({ status := 200,
     body := .o [("message", .s "Aircraft retrieved successfully"),
                 ("count", .n (aircraftListData db).length),
                 ("data", .a ((aircraftListData db).map populatedAircraftJson))] },
   db)

def getAircraftRoute (now : Nat) (hdr : AuthHeader) (db : DB) : Response × DB :=
  authenticateToken now hdr db getAircraft

/-- Request body of `POST /api/aircraft`. -/
structure AircraftBody where
  tailNumber : Option String
  model : Option String
  manufacturer : Option String
  year : Option Nat
  status : Option String
  specifications : Option Specifications
deriving Repr

/-- `status: status || 'active'` (line 257). -/
def statusOrActive : Option String → String
  | none => "active"
  | some s => if s == "" then "active" else s

/-- The Aircraft document built by `new Aircraft({...})` on lines 252-260:
`status: status || 'active'`, `specifications: specifications || {}`,
`createdBy: req.user.userId`. -/
def newAircraftOf (body : AircraftBody) (now : Nat) (user : Claims)
    (db : DB) : Aircraft :=
  { _id := db.freshId, tailNumber := body.tailNumber.getD "",
    model := body.model.getD "", manufacturer := body.manufacturer.getD "",
    year := body.year.getD 0, status := statusOrActive body.status,
    specifications := body.specifications.getD emptySpecifications,
    createdAt := now, createdBy := user.userId }

/-- `POST /api/aircraft` (src/server.js lines 241-281): JS-falsy required
field → 400; then `save()` runs mongoose schema validation (status enum) —
failure lands in the catch block as 500 — and the unique index on
tailNumber — duplicate key error 11000 → 400 conflict; on success the new
document is re-read populated. -/
def createAircraft (body : AircraftBody) (now : Nat) (user : Claims)
    (db : DB) : Response × DB :=
  if falsyStr body.tailNumber || falsyStr body.model
      || falsyStr body.manufacturer || falsyNat body.year then
    (errorResponse 400 "Missing required fields", db)
  else
    let a := newAircraftOf body now user db
    if aircraftStatusEnum.contains a.status then
      if db.aircraft.any (fun x => x.tailNumber == a.tailNumber) then
        (errorResponse 400 "Aircraft with this tail number already exists", db)
      else
        let db' : DB := { db with aircraft := db.aircraft ++ [a] }
        ({ status := 201,
           body := .o [("message", .s "Aircraft created successfully"),
                       ("data", populatedAircraftJson (populateAircraft db' a))] },
         db')
    else (errorResponse 500 "Failed to create aircraft", db)

def createAircraftRoute (body : AircraftBody) (now : Nat) (hdr : AuthHeader)
    (db : DB) : Response × DB :=
  authenticateToken now hdr db (createAircraft body now)

/-- Update body of `PUT /api/aircraft/:id`: provided fields are merged into
the existing document by `findByIdAndUpdate`. -/
structure AircraftUpdateBody where
  tailNumber : Option String
  model : Option String
  manufacturer : Option String
  year : Option Nat
  status : Option String
  specifications : Option Specifications
deriving Repr

def applyAircraftUpdate (b : AircraftUpdateBody) (a : Aircraft) : Aircraft :=
  { a with
    tailNumber := b.tailNumber.getD a.tailNumber,
    model := b.model.getD a.model,
    manufacturer := b.manufacturer.getD a.manufacturer,
    year := b.year.getD a.year,
    status := b.status.getD a.status,
    specifications := b.specifications.getD a.specifications }

/-- `Aircraft.findByIdAndUpdate(id, updateData, {new: true})`: none and an
unchanged store when no document has this id. -/
def findAircraftByIdAndUpdate (db : DB) (id : Nat) (b : AircraftUpdateBody) :
    Option Aircraft × DB :=
  match db.aircraft.find? (fun a => a._id == id) with
  | none => (none, db)
  | some a =>
    let a' := applyAircraftUpdate b a
    (some a',
     { db with aircraft := db.aircraft.map (fun x => if x._id == id then a' else x) })

/-- `PUT /api/aircraft/:id` (src/server.js lines 284-312). -/
def updateAircraft (id : Nat) (b : AircraftUpdateBody) (_user : Claims)
    (db : DB) : Response × DB :=
  match findAircraftByIdAndUpdate db id b with
  | (none, db') => (errorResponse 404 "Aircraft not found", db')
  | (some a', db') =>
    ({ status := 200,
       body := .o [("message", .s "Aircraft updated successfully"),
                   ("data", populatedAircraftJson (populateAircraft db' a'))] },
     db')

/-- `Aircraft.findByIdAndDelete(id)`. -/
def findAircraftByIdAndDelete (db : DB) (id : Nat) : Option Aircraft × DB :=
  match db.aircraft.find? (fun a => a._id == id) with
  | none => (none, db)
  | some a =>
    (some a, { db with aircraft := db.aircraft.filter (fun x => !(x._id == id)) })

/-- `DELETE /api/aircraft/:id` (src/server.js lines 314-336). -/
def deleteAircraft (id : Nat) (_user : Claims) (db : DB) : Response × DB :=
  match findAircraftByIdAndDelete db id with
  | (none, db') => (errorResponse 404 "Aircraft not found", db')
  | (some _, db') =>
    ({ status := 200, body := .o [("message", .s "Aircraft deleted successfully")] },
     db')

/-! ## Presentation routes (protected) -/

/-- A Presentation after `.populate('aircraft').populate('presenter',
'username').populate('attendees', 'username')`: the aircraft reference is
replaced by the raw Aircraft document (or null when dangling), presenter by
`{_id, username}` (or null), and attendees by the `{_id, username}` of each
attendee that exists. -/
structure PopulatedPresentation where
  _id : Nat
  title : String
  description : Option String
  scheduledDate : Nat
  duration : Nat
  aircraft : Option Aircraft
  presenter : Option UserRef
  attendees : List UserRef
  status : String
  createdAt : Nat
deriving DecidableEq, Repr

def populatePresentation (db : DB) (p : Presentation) : PopulatedPresentation :=
  { _id := p._id, title := p.title, description := p.description,
    scheduledDate := p.scheduledDate, duration := p.duration,
    aircraft := db.aircraft.find? (fun a => a._id == p.aircraft),
    presenter := resolveUserRef db p.presenter,
    attendees := p.attendees.filterMap (resolveUserRef db),
    status := p.status, createdAt := p.createdAt }

def optStrJson : Option String → JVal
  | none => .null
  | some s => .s s

def aircraftJson : Option Aircraft → JVal
  | none => .null
  | some a =>
    .o [("_id", .n a._id), ("tailNumber", .s a.tailNumber),
        ("model", .s a.model), ("manufacturer", .s a.manufacturer),
        ("year", .n a.year), ("status", .s a.status),
        ("specifications", specificationsJson a.specifications),
        ("createdAt", .n a.createdAt), ("createdBy", .n a.createdBy)]

def populatedPresentationJson (p : PopulatedPresentation) : JVal :=
  .o [("_id", .n p._id), ("title", .s p.title),
      ("description", optStrJson p.description),
      ("scheduledDate", .n p.scheduledDate), ("duration", .n p.duration),
      ("aircraft", aircraftJson p.aircraft),
      ("presenter", userRefJson p.presenter),
      ("attendees", .a (p.attendees.map (fun r => userRefJson (some r)))),
      ("status", .s p.status), ("createdAt", .n p.createdAt)]

/-- `GET /api/presentations` (src/server.js lines 339-356). -/
def getPresentations (_user : Claims) (db : DB) : Response × DB :=
  ({ status := 200,
     body := .o [("message", .s "Presentations retrieved successfully"),
                 ("count", .n db.presentations.length),
                 ("data", .a (db.presentations.map
                   (fun p => populatedPresentationJson (populatePresentation db p))))] },
   db)

/-- Request body of `POST /api/presentations`.  The handler destructures
only `title, description, scheduledDate, duration, aircraft, attendees`
(line 362); a `presenter` field in the body is never read. -/
structure PresentationBody where
  title : Option String
  description : Option String
  scheduledDate : Option Nat
  duration : Option Nat
  aircraft : Option Nat
  attendees : Option (List Nat)
  presenter : Option Nat
deriving Repr

/-- The Presentation document built by `new Presentation({...})` on lines
369-377: `presenter: req.user.userId` (a `presenter` field of the body is
never read), `attendees` defaulting to `[]`, status defaulting to the
schema's "scheduled". -/
def newPresentationOf (body : PresentationBody) (now : Nat) (user : Claims)
    (db : DB) : Presentation :=
  { _id := db.freshId, title := body.title.getD "",
    description := body.description,
    scheduledDate := body.scheduledDate.getD 0,
    duration := body.duration.getD 0, aircraft := body.aircraft.getD 0,
    presenter := user.userId, attendees := body.attendees.getD [],
    status := "scheduled", createdAt := now }

/-- `POST /api/presentations` (src/server.js lines 358-397): JS-falsy
required field → 400; otherwise the document is saved with
`presenter: req.user.userId`, `attendees` defaulting to `[]` and status
defaulting to "scheduled", then re-read populated. -/
def createPresentation (body : PresentationBody) (now : Nat) (user : Claims)
    (db : DB) : Response × DB :=
  if falsyStr body.title || falsyNat body.scheduledDate
      || falsyNat body.duration || falsyNat body.aircraft then
    (errorResponse 400 "Missing required fields", db)
  else
    let p := newPresentationOf body now user db
    let db' : DB := { db with presentations := db.presentations ++ [p] }
    ({ status := 201,
       body := .o [("message", .s "Presentation scheduled successfully"),
                   ("data", populatedPresentationJson (populatePresentation db' p))] },
     db')

def createPresentationRoute (body : PresentationBody) (now : Nat)
    (hdr : AuthHeader) (db : DB) : Response × DB :=
  authenticateToken now hdr db (createPresentation body now)

/-- Update body of `PUT /api/presentations/:id`. -/
structure PresentationUpdateBody where
  title : Option String
  description : Option String
  scheduledDate : Option Nat
  duration : Option Nat
  aircraft : Option Nat
  attendees : Option (List Nat)
  status : Option String
deriving Repr

def applyPresentationUpdate (b : PresentationUpdateBody) (p : Presentation) :
    Presentation :=
  { p with
    title := b.title.getD p.title,
    description := match b.description with
      | none => p.description
      | some d => some d,
    scheduledDate := b.scheduledDate.getD p.scheduledDate,
    duration := b.duration.getD p.duration,
    aircraft := b.aircraft.getD p.aircraft,
    attendees := b.attendees.getD p.attendees,
    status := b.status.getD p.status }

/-- `Presentation.findByIdAndUpdate(id, updateData, {new: true})`. -/
def findPresentationByIdAndUpdate (db : DB) (id : Nat)
    (b : PresentationUpdateBody) : Option Presentation × DB :=
  match db.presentations.find? (fun p => p._id == id) with
  | none => (none, db)
  | some p =>
    let p' := applyPresentationUpdate b p
    (some p',
     { db with presentations :=
         db.presentations.map (fun x => if x._id == id then p' else x) })

/-- `PUT /api/presentations/:id` (src/server.js lines 400-431). -/
def updatePresentation (id : Nat) (b : PresentationUpdateBody) (_user : Claims)
    (db : DB) : Response × DB :=
  match findPresentationByIdAndUpdate db id b with
  | (none, db') => (errorResponse 404 "Presentation not found", db')
  | (some p', db') =>
    ({ status := 200,
       body := .o [("message", .s "Presentation updated successfully"),
                   ("data", populatedPresentationJson (populatePresentation db' p'))] },
     db')

/-- `Presentation.findByIdAndDelete(id)`. -/
def findPresentationByIdAndDelete (db : DB) (id : Nat) :
    Option Presentation × DB :=
  match db.presentations.find? (fun p => p._id == id) with
  | none => (none, db)
  | some p =>
    (some p,
     { db with presentations := db.presentations.filter (fun x => !(x._id == id)) })

/-- `DELETE /api/presentations/:id` (src/server.js lines 433-455). -/
def deletePresentation (id : Nat) (_user : Claims) (db : DB) : Response × DB :=
  match findPresentationByIdAndDelete db id with
  | (none, db') => (errorResponse 404 "Presentation not found", db')
  | (some _, db') =>
    ({ status := 200,
       body := .o [("message", .s "Presentation deleted successfully")] },
     db')

/-! ## User routes (protected) -/

/-- The projection `'username email role createdAt'` used by
`User.find`/`User.findById` on lines 468 and 488; mongoose always includes
`_id`. -/
structure UserListItem where
  _id : Nat
  username : String
  email : String
  role : String
  createdAt : Nat
deriving DecidableEq, Repr

def userProjection (u : User) : UserListItem :=
  { _id := u._id, username := u.username, email := u.email, role := u.role,
    createdAt := u.createdAt }

def userListItemJson (u : UserListItem) : JVal :=
  .o [("_id", .n u._id), ("username", .s u.username), ("email", .s u.email),
      ("role", .s u.role), ("createdAt", .n u.createdAt)]

/-- Success body of `GET /api/users`. -/
def usersListBody (db : DB) : JVal :=
  .o [("message", .s "Users retrieved successfully"),
      ("count", .n db.users.length),
      ("data", .a (db.users.map (fun u => userListItemJson (userProjection u))))]

/-- `GET /api/users` (src/server.js lines 458-481): the handler runs only
after `authenticateToken`; a non-admin role answers 403 first, an admin
receives every stored user projected to its public fields. -/
def getUsers (user : Claims) (db : DB) : Response × DB :=
  if user.role ≠ "admin" then
    (errorResponse 403 "Admin access required", db)
  else
    ({ status := 200, body := usersListBody db }, db)

def getUsersRoute (now : Nat) (hdr : AuthHeader) (db : DB) : Response × DB :=
  authenticateToken now hdr db getUsers

/-- `GET /api/auth/profile` (src/server.js lines 484-502). -/
def getProfile (user : Claims) (db : DB) : Response × DB :=
  match db.users.find? (fun u => u._id == user.userId) with
  | none => (errorResponse 404 "User not found", db)
  | some u =>
    ({ status := 200,
       body := .o [("message", .s "Profile retrieved successfully"),
                   ("data", userListItemJson (userProjection u))] },
     db)

def getProfileRoute (now : Nat) (hdr : AuthHeader) (db : DB) : Response × DB :=
  authenticateToken now hdr db getProfile

def updateAircraftRoute (id : Nat) (b : AircraftUpdateBody) (now : Nat)
    (hdr : AuthHeader) (db : DB) : Response × DB :=
  authenticateToken now hdr db (updateAircraft id b)

def deleteAircraftRoute (id : Nat) (now : Nat) (hdr : AuthHeader) (db : DB) :
    Response × DB :=
  authenticateToken now hdr db (deleteAircraft id)

def updatePresentationRoute (id : Nat) (b : PresentationUpdateBody) (now : Nat)
    (hdr : AuthHeader) (db : DB) : Response × DB :=
  authenticateToken now hdr db (updatePresentation id b)

def deletePresentationRoute (id : Nat) (now : Nat) (hdr : AuthHeader) (db : DB) :
    Response × DB :=
  authenticateToken now hdr db (deletePresentation id)

/-! ## Concrete fixtures used by witnesses and counterexamples -/

def aliceUser : User :=
  { _id := 1, username := "alice", email := "alice@example.com",
    password := bcryptHash "hunter2", role := "admin", createdAt := 0 }

def bobUser : User :=
  { _id := 2, username := "bob", email := "bob@example.com",
    password := bcryptHash "passw0rd", role := "viewer", createdAt := 5 }

def fleetAircraft1 : Aircraft :=
  { _id := 3, tailNumber := "N100", model := "C172", manufacturer := "Cessna",
    year := 2001, status := "active", specifications := emptySpecifications,
    createdAt := 10, createdBy := 1 }

def fleetAircraft2 : Aircraft :=
  { _id := 4, tailNumber := "N200", model := "A320", manufacturer := "Airbus",
    year := 2015, status := "maintenance", specifications := emptySpecifications,
    createdAt := 20, createdBy := 2 }

def demoPresentation : Presentation :=
  { _id := 5, title := "Fleet demo", description := none, scheduledDate := 100,
    duration := 30, aircraft := 3, presenter := 1, attendees := [2],
    status := "scheduled", createdAt := 12 }

def sampleDB : DB :=
  { users := [aliceUser, bobUser],
    aircraft := [fleetAircraft1, fleetAircraft2],
    presentations := [demoPresentation] }

def adminClaims : Claims := { userId := 1, username := "alice", role := "admin" }

def viewerClaims : Claims := { userId := 2, username := "bob", role := "viewer" }

def validAliceToken : Token := jwtSign adminClaims JWT_SECRET 0

def validBobToken : Token := jwtSign viewerClaims JWT_SECRET 0

/-! ## Claims -/

/-- C1: On every protected route the `authenticateToken` middleware answers
401 with an error body when the Authorization header carries no bearer
token, answers 403 with an error body when the token fails verification
(tampered signature, malformed payload, or expired), and otherwise runs the
route handler with the decoded `{userId, username, role}` identity, so that
a valid token yields the route's normal response (e.g. 200 on
`GET /api/aircraft`). -/
theorem c1_auth_middleware (now : Nat) (hdr : AuthHeader) (db : DB)
    (handler : Claims → DB → Response × DB) :
    (extractToken hdr = none →
      authenticateToken now hdr db handler
        = (errorResponse 401 "Access token required. Please log in.", db)) ∧
    (∀ t, extractToken hdr = some t → jwtVerify t JWT_SECRET now = none →
      authenticateToken now hdr db handler
        = (errorResponse 403 "Invalid or expired token. Please log in again.", db)) ∧
    (∀ t user, extractToken hdr = some t →
      jwtVerify t JWT_SECRET now = some user →
      authenticateToken now hdr db handler = handler user db
        ∧ (getAircraftRoute now hdr db).1.status = 200) := by
  refine ⟨fun h => ?_, fun t ht hv => ?_, fun t user ht hv => ?_⟩
  · simp [authenticateToken, h]
  · simp [authenticateToken, ht, hv]
  · exact ⟨by simp [authenticateToken, ht, hv],
      by simp [getAircraftRoute, authenticateToken, ht, hv, getAircraft]⟩

theorem c1_auth_middleware_witness :
    (authenticateToken 30 .absent sampleDB getUsers
       = (errorResponse 401 "Access token required. Please log in.", sampleDB)) ∧
    (authenticateToken 30 (.bearer .malformed) sampleDB getUsers
       = (errorResponse 403 "Invalid or expired token. Please log in again.",
          sampleDB)) ∧
    (authenticateToken 30 (.bearer validAliceToken) sampleDB getUsers
       = getUsers adminClaims sampleDB) :=
  ⟨(c1_auth_middleware 30 .absent sampleDB getUsers).1 rfl,
   (c1_auth_middleware 30 (.bearer .malformed) sampleDB getUsers).2.1
     .malformed rfl rfl,
   ((c1_auth_middleware 30 (.bearer validAliceToken) sampleDB getUsers).2.2
     validAliceToken adminClaims rfl (by decide)).1⟩

/-- C2: On `GET /api/users` a valid token whose role is not `admin` yields
403 "Admin access required"; a valid admin token yields 200 with every
stored user (public projection); and the role check runs only after token
validity — a missing token yields the middleware's 401 and an invalid token
the middleware's 403, never the admin error. -/
theorem c2_users_admin_only (now : Nat) (hdr : AuthHeader) (db : DB) :
    (∀ t user, extractToken hdr = some t →
       jwtVerify t JWT_SECRET now = some user →
       (user.role ≠ "admin" →
          getUsersRoute now hdr db
            = (errorResponse 403 "Admin access required", db)) ∧
       (user.role = "admin" →
          getUsersRoute now hdr db
            = ({ status := 200, body := usersListBody db }, db))) ∧
    (extractToken hdr = none →
       getUsersRoute now hdr db
         = (errorResponse 401 "Access token required. Please log in.", db)) ∧
    (∀ t, extractToken hdr = some t → jwtVerify t JWT_SECRET now = none →
       getUsersRoute now hdr db
         = (errorResponse 403 "Invalid or expired token. Please log in again.",
            db)) := by
  refine ⟨fun t user ht hv => ⟨fun hrole => ?_, fun hrole => ?_⟩,
    fun h => ?_, fun t ht hv => ?_⟩
  · simp [getUsersRoute, authenticateToken, ht, hv, getUsers, hrole]
  · simp [getUsersRoute, authenticateToken, ht, hv, getUsers, hrole]
  · simp [getUsersRoute, authenticateToken, h]
  · simp [getUsersRoute, authenticateToken, ht, hv]

theorem c2_users_admin_only_witness :
    (getUsersRoute 30 (.bearer validBobToken) sampleDB
       = (errorResponse 403 "Admin access required", sampleDB)) ∧
    (getUsersRoute 30 (.bearer validAliceToken) sampleDB
       = ({ status := 200, body := usersListBody sampleDB }, sampleDB)) ∧
    (getUsersRoute 30 .absent sampleDB
       = (errorResponse 401 "Access token required. Please log in.", sampleDB)) ∧
    (getUsersRoute 30 (.bearer .malformed) sampleDB
       = (errorResponse 403 "Invalid or expired token. Please log in again.",
          sampleDB)) :=
  ⟨((c2_users_admin_only 30 (.bearer validBobToken) sampleDB).1 validBobToken
      viewerClaims rfl (by decide)).1 (by decide),
   ((c2_users_admin_only 30 (.bearer validAliceToken) sampleDB).1 validAliceToken
      adminClaims rfl (by decide)).2 rfl,
   (c2_users_admin_only 30 .absent sampleDB).2.1 rfl,
   (c2_users_admin_only 30 (.bearer .malformed) sampleDB).2.2 .malformed rfl rfl⟩

/-- A registration body whose password is shorter than 6 characters. -/
def shortPwBody : RegisterBody :=
  { username := some "carol", email := some "carol@example.com",
    password := some "abc", role := none }

/-- C3 counterexample: the register handler performs no password-length (or
required-field) validation — a registration whose password has length 3
succeeds with 201 and persists the User, where the claim demands a 400
ValidationError and nothing persisted. -/
theorem c3_counterexample :
    "abc".length < 6
      ∧ shortPwBody.password = some "abc"
      ∧ (register shortPwBody 7 emptyDB).1.status = 201
      ∧ (register shortPwBody 7 emptyDB).2.users ≠ [] := by decide

/-- C3 (amended): register never validates field presence or password
length.  Any registration whose username, email and password are present,
whose (defaulted) role is a legal enum value and which duplicates no stored
user succeeds with 201 and persists the User — however short the password —
and the only 400 register ever returns is the duplicate-user conflict, so a
missing field is never answered with a 400 ValidationError. -/
theorem c3_register_no_validation (body : RegisterBody) (now : Nat) (db : DB)
    (un em pw : String)
    (hu : body.username = some un) (he : body.email = some em)
    (hp : body.password = some pw)
    (henum : body.role.getD "viewer" ∈ roleEnum)
    (hnodup : findUserByEmailOrUsername db body.email body.username = none) :
    ((register body now db).1.status = 201
      ∧ (register body now db).2.users
          = db.users ++ [{ _id := db.freshId, username := un, email := em,
                           password := bcryptHash pw,
                           role := body.role.getD "viewer", createdAt := now }])
    ∧ (∀ (body2 : RegisterBody) (now2 : Nat) (db2 : DB),
         (register body2 now2 db2).1.status = 400 →
         (register body2 now2 db2).1 = errorResponse 400 "User already exists") := by
  constructor
  · rw [hu, he] at hnodup
    simp [register, hu, he, hp, hnodup, henum]
  · intro body2 now2 db2 h
    unfold register at h ⊢
    cases hfind : findUserByEmailOrUsername db2 body2.email body2.username
    · simp only [hfind] at h ⊢
      cases hpw : body2.password
      · simp [hpw, errorResponse] at h
      · simp only [hpw] at h ⊢
        cases hun : body2.username <;> cases hem : body2.email <;>
          simp only [hun, hem] at h ⊢
        · simp [errorResponse] at h
        · simp [errorResponse] at h
        · simp [errorResponse] at h
        · by_cases hrole : body2.role.getD "viewer" ∈ roleEnum <;>
            simp [hrole, errorResponse, authSuccessBody] at h
    · simp [hfind]

theorem c3_register_no_validation_witness :
    (register shortPwBody 7 emptyDB).1.status = 201
      ∧ (register shortPwBody 7 emptyDB).2.users
          = [{ _id := 1, username := "carol", email := "carol@example.com",
               password := bcryptHash "abc", role := "viewer", createdAt := 7 }] :=
  (c3_register_no_validation shortPwBody 7 emptyDB "carol" "carol@example.com"
    "abc" rfl rfl rfl (by decide) (by decide)).1

/-- C4: login answers the byte-identical `401 {error: "Invalid
credentials"}` response both when no User matches the email and when the
hash comparison fails; on success it answers 200 with a freshly signed
token whose payload decodes back to the stored user's id, username and
role, together with the public user fields. -/
theorem c4_login_uniform_errors (body : LoginBody) (now : Nat) (db : DB) :
    (findUserByEmail db body.email = none →
       login body now db = errorResponse 401 "Invalid credentials") ∧
    (∀ u, findUserByEmail db body.email = some u →
       bcryptCompare body.password u.password = false →
       login body now db = errorResponse 401 "Invalid credentials") ∧
    (∀ u, findUserByEmail db body.email = some u →
       bcryptCompare body.password u.password = true →
       login body now db
         = { status := 200,
             body := authSuccessBody "Login successful"
               (jwtSign { userId := u._id, username := u.username, role := u.role }
                 JWT_SECRET now) u }
       ∧ jwtVerify
           (jwtSign { userId := u._id, username := u.username, role := u.role }
             JWT_SECRET now) JWT_SECRET now
         = some { userId := u._id, username := u.username, role := u.role }) := by
  refine ⟨fun h => ?_, fun u hu hcmp => ?_, fun u hu hcmp => ⟨?_, ?_⟩⟩
  · simp [login, h]
  · simp [login, hu, hcmp]
  · simp [login, hu, hcmp]
  · simp [jwtVerify, jwtSign, tokenLifetime]

theorem c4_login_uniform_errors_witness :
    (login { email := "nosuch@example.com", password := "x" } 30 sampleDB
       = errorResponse 401 "Invalid credentials") ∧
    (login { email := "alice@example.com", password := "wrong" } 30 sampleDB
       = errorResponse 401 "Invalid credentials") ∧
    (login { email := "bob@example.com", password := "passw0rd" } 30 sampleDB
       = { status := 200,
           body := authSuccessBody "Login successful"
             (jwtSign { userId := bobUser._id, username := bobUser.username,
                        role := bobUser.role } JWT_SECRET 30) bobUser }) :=
  ⟨(c4_login_uniform_errors { email := "nosuch@example.com", password := "x" }
      30 sampleDB).1 (by decide),
   (c4_login_uniform_errors { email := "alice@example.com", password := "wrong" }
      30 sampleDB).2.1 aliceUser (by decide) (by decide),
   ((c4_login_uniform_errors { email := "bob@example.com", password := "passw0rd" }
      30 sampleDB).2.2 bobUser (by decide) (by decide)).1⟩

/-- An aircraft body whose every required field is supplied but whose
`year` is the JS-falsy number 0. -/
def zeroYearBody : AircraftBody :=
  { tailNumber := some "N300", model := some "C152",
    manufacturer := some "Cessna", year := some 0, status := none,
    specifications := none }

/-- An aircraft body whose supplied status is outside the schema enum. -/
def bogusStatusBody : AircraftBody :=
  { tailNumber := some "N300", model := some "C152",
    manufacturer := some "Cessna", year := some 1999,
    status := some "grounded", specifications := none }

/-- C5 counterexample: two requests in the claim's "otherwise" branch (all
of tailNumber, model, manufacturer, year supplied and the tail number
novel) for which no Aircraft is persisted — `year: 0` is JS-falsy and hits
the 400 "Missing required fields" branch, and a status outside the schema
enum makes `save()` throw, answered 500; the claim demands a 201 with the
record persisted in both cases. -/
theorem c5_counterexample :
    (zeroYearBody.year = some 0
      ∧ sampleDB.aircraft.any (fun x => x.tailNumber == "N300") = false
      ∧ (createAircraft zeroYearBody 30 viewerClaims sampleDB).1.status = 400
      ∧ (createAircraft zeroYearBody 30 viewerClaims sampleDB).2 = sampleDB)
    ∧ ((createAircraft bogusStatusBody 30 viewerClaims sampleDB).1.status = 500
      ∧ (createAircraft bogusStatusBody 30 viewerClaims sampleDB).2 = sampleDB) := by
  decide

/-- C5 (amended): on `POST /api/aircraft`, a JS-falsy (absent, empty or
zero) required field answers 400 and persists nothing; with the required
fields truthy and the effective status a legal enum value, a duplicate tail
number answers the 400 conflict and persists nothing, and otherwise the
Aircraft is persisted with status defaulting to "active" when not
supplied, specifications defaulting to empty and createdBy the caller's
user id, answering 201 with the created record and its owner resolved; a
supplied status outside the schema enum answers 500 and persists
nothing. -/
theorem c5_create_aircraft (body : AircraftBody) (now : Nat) (user : Claims)
    (db : DB) :
    ((falsyStr body.tailNumber || falsyStr body.model
        || falsyStr body.manufacturer || falsyNat body.year) = true →
       createAircraft body now user db
         = (errorResponse 400 "Missing required fields", db)) ∧
    ((falsyStr body.tailNumber || falsyStr body.model
        || falsyStr body.manufacturer || falsyNat body.year) = false →
       ((newAircraftOf body now user db).status ∈ aircraftStatusEnum →
          (db.aircraft.any
              (fun x => x.tailNumber == (newAircraftOf body now user db).tailNumber)
              = true →
             createAircraft body now user db
               = (errorResponse 400 "Aircraft with this tail number already exists",
                  db)) ∧
          (db.aircraft.any
              (fun x => x.tailNumber == (newAircraftOf body now user db).tailNumber)
              = false →
             createAircraft body now user db
               = ({ status := 201,
                    body := .o [("message", .s "Aircraft created successfully"),
                                ("data", populatedAircraftJson (populateAircraft
                                  { db with aircraft :=
                                      db.aircraft ++ [newAircraftOf body now user db] }
                                  (newAircraftOf body now user db)))] },
                  { db with aircraft :=
                      db.aircraft ++ [newAircraftOf body now user db] }))) ∧
       ((newAircraftOf body now user db).status ∉ aircraftStatusEnum →
          createAircraft body now user db
            = (errorResponse 500 "Failed to create aircraft", db))) ∧
    (newAircraftOf body now user db).createdBy = user.userId ∧
    (body.status = none → (newAircraftOf body now user db).status = "active") ∧
    (body.specifications = none →
       (newAircraftOf body now user db).specifications = emptySpecifications) := by
  refine ⟨fun h => ?_, fun h => ⟨fun hst => ⟨fun hdup => ?_, fun hdup => ?_⟩,
    fun hst => ?_⟩, rfl, fun h => ?_, fun h => ?_⟩
  · simp [createAircraft, h]
  · simp [createAircraft, h, hst, hdup]
  · simp [createAircraft, h, hst, hdup]
  · simp [createAircraft, h, hst]
  · simp [newAircraftOf, statusOrActive, h]
  · simp [newAircraftOf, h]

def missingTailBody : AircraftBody :=
  { tailNumber := none, model := some "C152", manufacturer := some "Cessna",
    year := some 1999, status := none, specifications := none }

def dupTailBody : AircraftBody :=
  { tailNumber := some "N100", model := some "C152",
    manufacturer := some "Cessna", year := some 1999, status := none,
    specifications := none }

def novelTailBody : AircraftBody :=
  { tailNumber := some "N300", model := some "C152",
    manufacturer := some "Cessna", year := some 1999, status := none,
    specifications := none }

theorem c5_create_aircraft_witness :
    (createAircraft missingTailBody 30 viewerClaims sampleDB
      = (errorResponse 400 "Missing required fields", sampleDB)) ∧
    (createAircraft dupTailBody 30 viewerClaims sampleDB
      = (errorResponse 400 "Aircraft with this tail number already exists",
         sampleDB)) ∧
    (createAircraft novelTailBody 30 viewerClaims sampleDB).1.status = 201 := by
  refine ⟨(c5_create_aircraft missingTailBody 30 viewerClaims sampleDB).1
      (by decide),
    (((c5_create_aircraft dupTailBody 30 viewerClaims sampleDB).2.1
      (by decide)).1 (by decide)).1 (by decide), ?_⟩
  rw [(((c5_create_aircraft novelTailBody 30 viewerClaims sampleDB).2.1
      (by decide)).1 (by decide)).2 (by decide)]

/-- "Ordered by creation time descending": each element's createdAt is
greater than or equal to the next one's. -/
def orderedByCreatedAtDesc : List PopulatedAircraft → Bool
  | x :: y :: rest =>
    decide (y.createdAt ≤ x.createdAt) && orderedByCreatedAtDesc (y :: rest)
  | _ => true

/-- C6 counterexample: `GET /api/aircraft` applies no sort — on a store
holding two aircraft created at times 10 and then 20, the response data
keeps the insertion order (ascending creation time), so it is not ordered
by creation time descending as the claim states. -/
theorem c6_counterexample :
    (getAircraftRoute 30 (.bearer validAliceToken) sampleDB).1
        = { status := 200,
            body := .o [("message", .s "Aircraft retrieved successfully"),
                        ("count", .n (aircraftListData sampleDB).length),
                        ("data", .a ((aircraftListData sampleDB).map
                          populatedAircraftJson))] }
      ∧ aircraftListData sampleDB
          = [populateAircraft sampleDB fleetAircraft1,
             populateAircraft sampleDB fleetAircraft2]
      ∧ (populateAircraft sampleDB fleetAircraft1).createdAt
          < (populateAircraft sampleDB fleetAircraft2).createdAt
      ∧ orderedByCreatedAtDesc (aircraftListData sampleDB) = false := by
  refine ⟨rfl, by decide, by decide, by decide⟩

/-- C6 (amended): for every authenticated list request, `GET /api/aircraft`
answers 200 with every Aircraft of the store, in the store's natural
(insertion) order — no reordering by creation time is applied — each
populated with its owning user's username, and the count equal to the
number of stored aircraft; the store is unchanged. -/
theorem c6_aircraft_list (now : Nat) (hdr : AuthHeader) (db : DB) :
    ∀ t user, extractToken hdr = some t →
      jwtVerify t JWT_SECRET now = some user →
      getAircraftRoute now hdr db
          = ({ status := 200,
               body := .o [("message", .s "Aircraft retrieved successfully"),
                           ("count", .n (aircraftListData db).length),
                           ("data", .a ((aircraftListData db).map
                             populatedAircraftJson))] },
             db)
        ∧ aircraftListData db = db.aircraft.map (populateAircraft db)
        ∧ (aircraftListData db).length = db.aircraft.length := by
  intro t user ht hv
  refine ⟨by simp [getAircraftRoute, authenticateToken, ht, hv, getAircraft],
    rfl, by simp [aircraftListData]⟩

theorem c6_aircraft_list_witness :
    getAircraftRoute 30 (.bearer validBobToken) sampleDB
        = ({ status := 200,
             body := .o [("message", .s "Aircraft retrieved successfully"),
                         ("count", .n (aircraftListData sampleDB).length),
                         ("data", .a ((aircraftListData sampleDB).map
                           populatedAircraftJson))] },
           sampleDB)
      ∧ aircraftListData sampleDB
          = sampleDB.aircraft.map (populateAircraft sampleDB) :=
  ⟨(c6_aircraft_list 30 (.bearer validBobToken) sampleDB validBobToken
      viewerClaims rfl (by decide)).1,
   (c6_aircraft_list 30 (.bearer validBobToken) sampleDB validBobToken
      viewerClaims rfl (by decide)).2.1⟩

/-- C7: an authenticated `PUT`/`DELETE` on `/api/aircraft/:id` or
`/api/presentations/:id` whose id matches no stored record answers 404
with the model's "not found" error body and leaves the store unchanged. -/
theorem c7_notfound_unchanged (now : Nat) (hdr : AuthHeader) (db : DB)
    (id : Nat) (ab : AircraftUpdateBody) (pb : PresentationUpdateBody)
    (t : Token) (user : Claims)
    (ht : extractToken hdr = some t)
    (hv : jwtVerify t JWT_SECRET now = some user) :
    (db.aircraft.find? (fun a => a._id == id) = none →
       updateAircraftRoute id ab now hdr db
           = (errorResponse 404 "Aircraft not found", db)
         ∧ deleteAircraftRoute id now hdr db
           = (errorResponse 404 "Aircraft not found", db)) ∧
    (db.presentations.find? (fun p => p._id == id) = none →
       updatePresentationRoute id pb now hdr db
           = (errorResponse 404 "Presentation not found", db)
         ∧ deletePresentationRoute id now hdr db
           = (errorResponse 404 "Presentation not found", db)) := by
  constructor
  · intro h
    constructor
    · simp [updateAircraftRoute, authenticateToken, ht, hv, updateAircraft,
        findAircraftByIdAndUpdate, h]
    · simp [deleteAircraftRoute, authenticateToken, ht, hv, deleteAircraft,
        findAircraftByIdAndDelete, h]
  · intro h
    constructor
    · simp [updatePresentationRoute, authenticateToken, ht, hv,
        updatePresentation, findPresentationByIdAndUpdate, h]
    · simp [deletePresentationRoute, authenticateToken, ht, hv,
        deletePresentation, findPresentationByIdAndDelete, h]

def emptyAircraftUpdate : AircraftUpdateBody :=
  { tailNumber := none, model := none, manufacturer := none, year := none,
    status := none, specifications := none }

def emptyPresentationUpdate : PresentationUpdateBody :=
  { title := none, description := none, scheduledDate := none,
    duration := none, aircraft := none, attendees := none, status := none }

theorem c7_notfound_unchanged_witness :
    (updateAircraftRoute 99 emptyAircraftUpdate 30 (.bearer validBobToken)
        sampleDB = (errorResponse 404 "Aircraft not found", sampleDB)
      ∧ deleteAircraftRoute 99 30 (.bearer validBobToken) sampleDB
        = (errorResponse 404 "Aircraft not found", sampleDB)) ∧
    (updatePresentationRoute 99 emptyPresentationUpdate 30
        (.bearer validBobToken) sampleDB
        = (errorResponse 404 "Presentation not found", sampleDB)
      ∧ deletePresentationRoute 99 30 (.bearer validBobToken) sampleDB
        = (errorResponse 404 "Presentation not found", sampleDB)) :=
  ⟨(c7_notfound_unchanged 30 (.bearer validBobToken) sampleDB 99
      emptyAircraftUpdate emptyPresentationUpdate validBobToken viewerClaims
      rfl (by decide)).1 (by decide),
   (c7_notfound_unchanged 30 (.bearer validBobToken) sampleDB 99
      emptyAircraftUpdate emptyPresentationUpdate validBobToken viewerClaims
      rfl (by decide)).2 (by decide)⟩

/-- A presentation body whose every required field is supplied but whose
`duration` is the JS-falsy number 0. -/
def zeroDurationBody : PresentationBody :=
  { title := some "Intro briefing", description := none,
    scheduledDate := some 1000, duration := some 0, aircraft := some 3,
    attendees := none, presenter := none }

/-- C8 counterexample: a request supplying title, scheduledDate, duration
and aircraft — none absent — whose `duration: 0` is JS-falsy: the handler
answers 400 "Missing required fields" and persists nothing, where the claim
(which reserves 400 for an absent field) demands a persisted Presentation
and a 201. -/
theorem c8_counterexample :
    zeroDurationBody.title = some "Intro briefing"
      ∧ zeroDurationBody.scheduledDate = some 1000
      ∧ zeroDurationBody.duration = some 0
      ∧ zeroDurationBody.aircraft = some 3
      ∧ (createPresentation zeroDurationBody 40 viewerClaims sampleDB).1.status
          = 400
      ∧ (createPresentation zeroDurationBody 40 viewerClaims sampleDB).2
          = sampleDB := by
  decide

/-- C8 (amended): on `POST /api/presentations`, a JS-falsy (absent, empty
or zero) title, scheduledDate, duration or aircraft reference answers 400
and persists nothing; otherwise a Presentation is persisted whose presenter
is always the caller's user id — any `presenter` field of the body is
ignored — and whose attendees default to empty when not supplied, and the
response is 201 with the created record's aircraft, presenter and attendees
resolved. -/
theorem c8_create_presentation (body : PresentationBody) (now : Nat)
    (user : Claims) (db : DB) :
    ((falsyStr body.title || falsyNat body.scheduledDate
        || falsyNat body.duration || falsyNat body.aircraft) = true →
       createPresentation body now user db
         = (errorResponse 400 "Missing required fields", db)) ∧
    ((falsyStr body.title || falsyNat body.scheduledDate
        || falsyNat body.duration || falsyNat body.aircraft) = false →
       createPresentation body now user db
         = ({ status := 201,
              body := .o [("message", .s "Presentation scheduled successfully"),
                          ("data", populatedPresentationJson (populatePresentation
                            { db with presentations := db.presentations
                                ++ [newPresentationOf body now user db] }
                            (newPresentationOf body now user db)))] },
            { db with presentations := db.presentations
                ++ [newPresentationOf body now user db] })) ∧
    (newPresentationOf body now user db).presenter = user.userId ∧
    (body.attendees = none →
       (newPresentationOf body now user db).attendees = []) ∧
    (∀ pres : Option Nat,
       createPresentation { body with presenter := pres } now user db
         = createPresentation body now user db) := by
  refine ⟨fun h => ?_, fun h => ?_, rfl, fun h => ?_, fun pres => ?_⟩
  · simp [createPresentation, h]
  · simp [createPresentation, h]
  · simp [newPresentationOf, h]
  · rfl

theorem c8_create_presentation_witness :
    (createPresentation { zeroDurationBody with duration := some 45 } 40
        viewerClaims sampleDB).1.status = 201
      ∧ (createPresentation { zeroDurationBody with duration := some 45 } 40
          viewerClaims sampleDB).2.presentations
        = sampleDB.presentations
            ++ [newPresentationOf { zeroDurationBody with duration := some 45 }
                 40 viewerClaims sampleDB] := by
  rw [((c8_create_presentation { zeroDurationBody with duration := some 45 }
    40 viewerClaims sampleDB).2.1 (by decide))]
  exact ⟨rfl, rfl⟩

/-- The public user fields of the spec (`_id`/`id` both name the id). -/
def publicUserFields : List String :=
  ["id", "_id", "username", "email", "role", "createdAt"]

theorem jGet_user_errorBody (s : Nat) (m : String) :
    jGet "user" (errorResponse s m).body = none := rfl

theorem jGet_data_errorBody (s : Nat) (m : String) :
    jGet "data" (errorResponse s m).body = none := rfl

theorem jGet_user_authSuccessBody (m : String) (t : Token) (u : User) :
    jGet "user" (authSuccessBody m t u)
      = some (publicUserJson (publicUserOut u)) := rfl

theorem jGet_token_authSuccessBody (m : String) (t : Token) (u : User) :
    jGet "token" (authSuccessBody m t u) = some (.tok t) := rfl

theorem publicUserJson_keys (p : PublicUserOut) :
    objKeys (publicUserJson p) = ["id", "username", "email", "role"] := rfl

theorem userListItemJson_keys (u : UserListItem) :
    objKeys (userListItemJson u)
      = ["_id", "username", "email", "role", "createdAt"] := rfl

/-- Every register response is either an error body or the 201 success body
built from the freshly persisted user. -/
theorem register_response_body_cases (body : RegisterBody) (now : Nat)
    (db : DB) :
    (∃ s m, (register body now db).1 = errorResponse s m)
    ∨ (∃ u : User, (register body now db).1.body
         = authSuccessBody "User registered successfully"
             (jwtSign { userId := u._id, username := u.username, role := u.role }
               JWT_SECRET now) u) := by
  unfold register
  cases hfind : findUserByEmailOrUsername db body.email body.username
  case none =>
    cases hpw : body.password
    case none => exact Or.inl ⟨500, "Internal server error", rfl⟩
    case some pw =>
      cases hun : body.username
      case none => exact Or.inl ⟨500, "Internal server error", rfl⟩
      case some un =>
        cases hem : body.email
        case none => exact Or.inl ⟨500, "Internal server error", rfl⟩
        case some em =>
          by_cases hrole : body.role.getD "viewer" ∈ roleEnum
          · refine Or.inr ⟨{ _id := db.freshId, username := un, email := em,
                             password := bcryptHash pw,
                             role := body.role.getD "viewer",
                             createdAt := now }, ?_⟩
            simp [hrole]
          · refine Or.inl ⟨500, "Internal server error", ?_⟩
            simp [hrole]
  case some u => exact Or.inl ⟨400, "User already exists", rfl⟩

/-- C9: no success response of register, login, `GET /api/users` or
`GET /api/auth/profile` ever carries the stored password hash — every user
object placed in a response is either the `{id, username, email, role}`
projection or the `{_id, username, email, role, createdAt}` projection,
whose key sets are contained in the public fields and never include
"password". -/
theorem c9_no_password_exposure (db : DB) (rb : RegisterBody) (lb : LoginBody)
    (user : Claims) (now : Nat) :
    (∀ v, jGet "user" (register rb now db).1.body = some v →
       ∃ u : User, v = publicUserJson (publicUserOut u)) ∧
    (∀ v, jGet "user" (login lb now db).body = some v →
       ∃ u : User, v = publicUserJson (publicUserOut u)) ∧
    ((getUsers user db).1.status = 200 →
       jGet "data" (getUsers user db).1.body
         = some (.a (db.users.map (fun u => userListItemJson (userProjection u))))) ∧
    (∀ v, jGet "data" (getProfile user db).1.body = some v →
       ∃ u : User, v = userListItemJson (userProjection u)) ∧
    (∀ u : User,
       objKeys (publicUserJson (publicUserOut u))
           = ["id", "username", "email", "role"]
         ∧ objKeys (publicUserJson (publicUserOut u)) ⊆ publicUserFields
         ∧ "password" ∉ objKeys (publicUserJson (publicUserOut u))) ∧
    (∀ u : User,
       objKeys (userListItemJson (userProjection u))
           = ["_id", "username", "email", "role", "createdAt"]
         ∧ objKeys (userListItemJson (userProjection u)) ⊆ publicUserFields
         ∧ "password" ∉ objKeys (userListItemJson (userProjection u))) := by
  refine ⟨fun v hv => ?_, fun v hv => ?_, fun hst => ?_, fun v hv => ?_,
    fun u => ⟨rfl, by rw [publicUserJson_keys]; decide,
      by rw [publicUserJson_keys]; decide⟩,
    fun u => ⟨rfl, by rw [userListItemJson_keys]; decide,
      by rw [userListItemJson_keys]; decide⟩⟩
  · rcases register_response_body_cases rb now db with ⟨s, m, hshape⟩ | ⟨u, hshape⟩
    · rw [hshape, jGet_user_errorBody] at hv
      cases hv
    · rw [hshape, jGet_user_authSuccessBody] at hv
      exact ⟨u, (Option.some.inj hv).symm⟩
  · cases hfind : findUserByEmail db lb.email
    case none =>
      rw [show login lb now db = errorResponse 401 "Invalid credentials" from
        by simp [login, hfind]] at hv
      rw [jGet_user_errorBody] at hv
      cases hv
    case some u0 =>
      by_cases hcmp : bcryptCompare lb.password u0.password
      · rw [show (login lb now db).body
            = authSuccessBody "Login successful"
                (jwtSign { userId := u0._id, username := u0.username,
                           role := u0.role } JWT_SECRET now) u0 from
          by simp [login, hfind, hcmp]] at hv
        rw [jGet_user_authSuccessBody] at hv
        exact ⟨u0, (Option.some.inj hv).symm⟩
      · rw [show login lb now db = errorResponse 401 "Invalid credentials" from
          by simp [login, hfind, hcmp]] at hv
        rw [jGet_user_errorBody] at hv
        cases hv
  · by_cases hrole : user.role = "admin"
    · rw [show (getUsers user db).1.body = usersListBody db from
        by simp [getUsers, hrole]]
      rfl
    · rw [show (getUsers user db).1.status = 403 from
        by simp [getUsers, hrole, errorResponse]] at hst
      cases hst
  · cases hfind : db.users.find? (fun u => u._id == user.userId)
    case none =>
      rw [show (getProfile user db).1 = errorResponse 404 "User not found" from
        by simp [getProfile, hfind]] at hv
      rw [jGet_data_errorBody] at hv
      cases hv
    case some u0 =>
      rw [show (getProfile user db).1.body
          = .o [("message", .s "Profile retrieved successfully"),
                ("data", userListItemJson (userProjection u0))] from
        by simp [getProfile, hfind]] at hv
      exact ⟨u0, (Option.some.inj hv).symm⟩

theorem c9_no_password_exposure_witness :
    jGet "data" (getUsers adminClaims sampleDB).1.body
      = some (.a (sampleDB.users.map
          (fun u => userListItemJson (userProjection u)))) :=
  (c9_no_password_exposure sampleDB shortPwBody
    { email := "x", password := "y" } adminClaims 0).2.2.1 (by decide)

/-- A registration body supplying role "admin" on a public, unauthenticated
route. -/
def adminRegBody : RegisterBody :=
  { username := some "dave", email := some "dave@example.com",
    password := some "s3cretpass", role := some "admin" }

/-- C10: register takes the role straight from the unauthenticated request
body — any legal enum role, "admin" included, is persisted and signed into
the issued token — and the role defaults to "viewer" exactly when the body
supplies none; in particular the concrete request `adminRegBody` (role
"admin", no token required by `POST /api/auth/register`) persists an admin
User and receives a token carrying role "admin". -/
theorem c10_role_from_body (body : RegisterBody) (now : Nat) (db : DB)
    (un em pw r : String)
    (hu : body.username = some un) (he : body.email = some em)
    (hp : body.password = some pw) (hr : body.role = some r)
    (henum : r ∈ roleEnum)
    (hnodup : findUserByEmailOrUsername db body.email body.username = none) :
    ((register body now db).1.status = 201
      ∧ (register body now db).2.users
          = db.users ++ [{ _id := db.freshId, username := un, email := em,
                           password := bcryptHash pw, role := r,
                           createdAt := now }]
      ∧ jGet "token" (register body now db).1.body
          = some (.tok (jwtSign { userId := db.freshId, username := un,
                                  role := r } JWT_SECRET now)))
    ∧ (∀ (body2 : RegisterBody) (now2 : Nat) (db2 : DB) (un2 em2 pw2 : String),
         body2.username = some un2 → body2.email = some em2 →
         body2.password = some pw2 → body2.role = none →
         findUserByEmailOrUsername db2 body2.email body2.username = none →
         (register body2 now2 db2).2.users
           = db2.users ++ [{ _id := db2.freshId, username := un2, email := em2,
                             password := bcryptHash pw2, role := "viewer",
                             createdAt := now2 }])
    ∧ ((register adminRegBody 0 emptyDB).1.status = 201
      ∧ (register adminRegBody 0 emptyDB).2.users
          = [{ _id := 1, username := "dave", email := "dave@example.com",
               password := bcryptHash "s3cretpass", role := "admin",
               createdAt := 0 }]
      ∧ jGet "token" (register adminRegBody 0 emptyDB).1.body
          = some (.tok (jwtSign { userId := 1, username := "dave",
                                  role := "admin" } JWT_SECRET 0))) := by
  refine ⟨?_, fun body2 now2 db2 un2 em2 pw2 hu2 he2 hp2 hr2 hnd2 => ?_,
    by decide, by decide, rfl⟩
  · rw [hu, he] at hnodup
    simp [register, hu, he, hp, hr, hnodup, henum, jGet_token_authSuccessBody]
  · rw [hu2, he2] at hnd2
    have hviewer : ("viewer" : String) ∈ roleEnum := by decide
    simp [register, hu2, he2, hp2, hr2, hnd2, hviewer]

theorem c10_role_from_body_witness :
    (register adminRegBody 0 emptyDB).1.status = 201
      ∧ (register adminRegBody 0 emptyDB).2.users
          = [{ _id := 1, username := "dave", email := "dave@example.com",
               password := bcryptHash "s3cretpass", role := "admin",
               createdAt := 0 }]
      ∧ jGet "token" (register adminRegBody 0 emptyDB).1.body
          = some (.tok (jwtSign { userId := 1, username := "dave",
                                  role := "admin" } JWT_SECRET 0)) :=
  (c10_role_from_body adminRegBody 0 emptyDB "dave" "dave@example.com"
    "s3cretpass" "admin" rfl rfl rfl rfl (by decide) (by decide)).2.2

end AiOne
